import Mathlib

/-!
# GemDesk real-time gateway — verification development

Shallow embedding of the chat gateway of the GemDesk repository:

* `GeminiCLI` — `GeminiCLIService.sendMessage` (services/geminiCLI.ts):
  spawn-per-request backend invoker, outcome classification, 60 s timeout.
* `Auth` — `AuthService.validateSession` (services/auth.ts) over
  `MemStorage.getSession` / `DatabaseStorage.getSession` (storage.ts).
* `Gemini` — `GeminiService.sendMessage` (services/gemini.ts): the
  process-wide `conversationHistory` list and prompt construction.
* `Gateway` — the Socket.IO per-user message queue of `registerRoutes`
  (routes.ts): `messageQueues`, `processingUsers`, `processMessageQueue`,
  the `chat_message` and `disconnect` handlers, modelled as a small-step
  machine whose steps are the atomic segments of the Node.js event loop.
* `WsGateway` — the `ws`-based message handler variant
  (`wss.on('connection')` / `ws.on('message')`).
-/

namespace GemDesk

/-- Pointwise update of a total map, mirroring `Map.set` / `Map.delete`
(with absent keys read as the default value). -/
def upd {α : Type} [DecidableEq α] {β : Type} (f : α → β) (k : α) (v : β) : α → β :=
  fun x => if x = k then v else f x

/-- JavaScript `String.prototype.trim()`: strip whitespace from both ends
(computable model of the `.trim()` calls in the sources). -/
def jsTrim (s : String) : String :=
  ⟨((s.data.dropWhile Char.isWhitespace).reverse.dropWhile Char.isWhitespace).reverse⟩

/-! ## Backend Invoker: `GeminiCLIService.sendMessage` (services/geminiCLI.ts)

One external process is spawned per request.  The `processCompleted` flag in
the source makes exactly one of the three terminal events count: the first
`close`, the first `error`, or the 60 s timeout firing.  `ExecEnd` records
which terminal event happened first, together with the accumulated stdout and
stderr buffers at that moment. -/

namespace GeminiCLI

/-- The first terminal event observed for one spawned CLI process. -/
inductive ExecEnd : Type
  /-- `close` fired first, with exit code and the accumulated output buffers. -/
  | closed (code : Int) (stdout : String) (stderr : String)
  /-- the process-level `error` event fired first (e.g. spawn failure). -/
  | procError (msg : String)
  /-- neither `close` nor `error` fired within the timeout window. -/
  | timedOut
deriving DecidableEq, Repr

/-- The timeout passed to `setTimeout` in `sendMessage`: 60 000 ms. -/
def timeoutMs : Nat := 60000

/-- Promise outcome of `sendMessage`. -/
inductive CLIResult : Type
  /-- the promise resolved with a `GeminiCLIResponse` whose `message` is given. -/
  | resolved (message : String)
  /-- the promise rejected with an `Error` whose message is given. -/
  | rejected (reason : String)
deriving DecidableEq, Repr

/-- Observable outcome of one `sendMessage` call: the promise result plus
whether `cliProcess.kill()` was invoked. -/
structure SendOutcome : Type where
  result : CLIResult
  killed : Bool
deriving DecidableEq, Repr

/-- `GeminiCLIService.sendMessage`, classification part: given the service's
`isReady` flag and the first terminal event of the spawned process, the
promise outcome.  Mirrors the `close` handler (`code === 0 && output.trim()`
resolves with `output.trim()`, otherwise reject with `errorOutput` or a
`Process exited with code …` message), the `error` handler, and the
`setTimeout` handler (kill + reject `Response timeout`). -/
def sendMessageClassify (isReady : Bool) (e : ExecEnd) : SendOutcome :=
  if !isReady then ⟨.rejected "Gemini CLI not ready", false⟩
  else
    match e with
    | .closed code stdout stderr =>
        if code = 0 ∧ jsTrim stdout ≠ "" then
          ⟨.resolved (jsTrim stdout), false⟩
        else
          ⟨.rejected (if stderr ≠ "" then stderr
                      else "Process exited with code " ++ toString code), false⟩
    | .procError msg => ⟨.rejected msg, false⟩
    | .timedOut => ⟨.rejected "Response timeout", true⟩

end GeminiCLI

/-! ## Session Validator: `AuthService.validateSession` (services/auth.ts)

`validateSession` wraps the whole lookup in `try/catch` and returns `null`
on any throw; the Lean model therefore returns a plain `Option User` while
its collaborators (`storage.getSession`, `storage.getUser`) are modelled as
`Except`-valued functions that may fail. -/

namespace Auth

/-- A row of the `sessions` store. -/
structure Session : Type where
  userId : Nat
  token : String
  /-- expiry instant, milliseconds since epoch (`expiresAt`). -/
  expiresAt : Int
deriving DecidableEq, Repr

/-- A row of the `users` store; only the id matters here. -/
structure User : Type where
  id : Nat
deriving DecidableEq, Repr

/-- `MemStorage.getSession` (storage.ts, in-memory variant): look the token
up in the `sessions` map; if the session exists but `expiresAt < now`,
delete it and return `undefined`.  Returns the lookup result together with
the updated session list. -/
def memGetSession (sessions : List Session) (now : Int) (token : String) :
    Option Session × List Session :=
  match sessions.find? (fun s => s.token = token) with
  | none => (none, sessions)
  | some s =>
      if s.expiresAt < now then
        (none, sessions.filter (fun t => t.token ≠ token))
      else (some s, sessions)

/-- `DatabaseStorage.getSession` (storage.ts, Drizzle variant): a plain
`WHERE token = …` select with no expiry check. -/
def dbGetSession (sessions : List Session) (token : String) : Option Session :=
  sessions.find? (fun s => s.token = token)

/-- `AuthService.validateSession`: empty token → `null`; storage lookups
that throw are caught and mapped to `null`; unknown token → `null`;
otherwise the user row for the session (or `null` when absent).  The plain
`Option User` return type is the never-throws guarantee: every failure of a
collaborator is absorbed by the surrounding `try/catch`. -/
def validateSession (getSession : String → Except String (Option Session))
    (getUser : Nat → Except String (Option User)) (token : String) : Option User :=
  if token = "" then none
  else
    match getSession token with
    | .error _ => none
    | .ok none => none
    | .ok (some session) =>
        match getUser session.userId with
        | .error _ => none
        | .ok u => u

/-- `validateSession` as wired in the repository: `storage` is the
`MemStorage` singleton (storage.ts line 194), so `getSession` is
`memGetSession` over the current session list and clock. -/
def validateSessionMem (sessions : List Session) (now : Int)
    (getUser : Nat → Except String (Option User)) (token : String) : Option User :=
  validateSession (fun tk => .ok (memGetSession sessions now tk).1) getUser token

end Auth

/-! ## `GeminiService.sendMessage` (services/gemini.ts)

The service keeps a single `conversationHistory` array as private state of
the one process-wide `GeminiService` instance; it has no user parameter, so
every caller of `sendMessage` shares it. -/

namespace Gemini

/-- One entry of `conversationHistory`. -/
structure HistEntry : Type where
  role : String
  content : String
deriving DecidableEq, Repr

/-- `Array.prototype.slice(-n)`: the last at most `n` elements. -/
def takeLast {α : Type} (l : List α) (n : Nat) : List α :=
  l.drop (l.length - n)

/-- The prompt built by `sendMessage` once the user message has been pushed
onto the history `hist`: start from the message, replace it with the
context-prefixed form when a context is given, and replace that in turn with
the `Previous conversation:` form (last 10 history entries) whenever the
history now has more than one entry. -/
def buildPrompt (hist : List HistEntry) (message : String)
    (context : Option String) : String :=
  let prompt := message
  let prompt :=
    match context with
    | some c => "Context: " ++ c ++ "\n\nUser message: " ++ message
    | none => prompt
  if hist.length > 1 then
    "Previous conversation:\n" ++
      String.intercalate "\n"
        ((takeLast hist 10).map (fun e => e.role ++ ": " ++ e.content)) ++
      "\n\nCurrent message: " ++ message
  else prompt

/-- The `response.text || "I'm sorry, I couldn't generate a response."`
fallback: an empty (falsy) model text is replaced by the apology string. -/
def fallbackText (responseText : String) : String :=
  if responseText = "" then "I'm sorry, I couldn't generate a response."
  else responseText

/-- One call of `GeminiService.sendMessage`.  `responseText` is the
`response.text` returned by the model API for the built prompt (empty string
for a missing text).  Returns the new `conversationHistory`, the prompt that
was sent, and the `message` field of the returned `GeminiResponse`. -/
def sendMessage (hist : List HistEntry) (message : String)
    (context : Option String) (responseText : String) :
    List HistEntry × String × String :=
  let h1 := hist ++ [⟨"user", message⟩]
  let prompt := buildPrompt h1 message context
  let aiMessage := fallbackText responseText
  let h2 := h1 ++ [⟨"assistant", aiMessage⟩]
  let h3 := if h2.length > 20 then takeLast h2 20 else h2
  (h3, prompt, aiMessage)

end Gemini

/-! ## Connection Gateway / Per-User Request Serializer (routes.ts)

`registerRoutes` keeps two module-level collections:

* `messageQueues : Map<number, Array<{content, metadata, socket}>>`
* `processingUsers : Set<number>`

`processMessageQueue(userId)` is `async`; its prefix up to the first `await`
(the processing-flag check, the empty-queue check, `processingUsers.add` and
`queue.shift()`) runs atomically on the event loop.  The remainder of its
body runs when the invocation settles and is again a single synchronous
segment (transcript writes, emit, `catch`, `finally`).  The machine below
has one step per such atomic segment; `inFlight` is the (ghost) list of
invocations currently running for a user, and `pending` records `userId`s
with a `setImmediate(() => processMessageQueue(userId))` callback scheduled. -/

namespace Gateway

/-- One element of a user's `messageQueues` array — a pending chat request
carrying the originating socket's id. -/
structure Entry : Type where
  content : String
  metadata : String
  socketId : Nat
deriving DecidableEq, Repr

/-- Sender tag of a `chat_messages` row. -/
inductive Sender : Type
  | user
  | ai
deriving DecidableEq, Repr

/-- One `storage.createChatMessage` row (the fields the gateway writes). -/
structure Record : Type where
  sender : Sender
  content : String
deriving DecidableEq, Repr

/-- An event emitted to a client socket. -/
inductive OutEvent : Type
  | connected
  | aiResponse (content : String)
  | error (msg : String)
deriving DecidableEq, Repr

/-- Result of one settled `geminiCLIService.sendMessage` call as seen by
`processMessageQueue`: either a resolved response or a rejection (process
failure, non-zero exit, empty output, or the 60 s timeout). -/
inductive Outcome : Type
  | success (reply : String) (replyMeta : String)
  | failure (errMsg : String)
deriving DecidableEq, Repr

/-- Gateway state.  `queues`, `processing` mirror `messageQueues` and
`processingUsers` (absent keys read as `[]` / `false`); `conns` is the set
of live sockets with the `userId` stored in their `socket.data`;
`transcript` is the per-user `chat_messages` log; `emitted` the stream of
socket emits `(socketId, event)`; `enqueuedLog` / `deliveredLog` are ghost
histories of entries ever enqueued / entries whose `ai_response` was
emitted, per user. -/
structure State : Type where
  queues : Nat → List Entry
  processing : Nat → Bool
  inFlight : Nat → List Entry
  pending : List Nat
  conns : List (Nat × Nat)
  transcript : Nat → List Record
  emitted : List (Nat × OutEvent)
  enqueuedLog : Nat → List Entry
  deliveredLog : Nat → List Entry

/-- The empty server state at module load. -/
def init : State where
  queues := fun _ => []
  processing := fun _ => false
  inFlight := fun _ => []
  pending := []
  conns := []
  transcript := fun _ => []
  emitted := []
  enqueuedLog := fun _ => []
  deliveredLog := fun _ => []

/-- The synchronous prefix of `processMessageQueue(userId)`: return if the
user is already in `processingUsers` or its queue is empty; otherwise add
the user to `processingUsers` and `shift()` the head entry, which becomes
the running invocation. -/
def processMessageQueue (s : State) (u : Nat) : State :=
  if s.processing u then s
  else
    match s.queues u with
    | [] => s
    | e :: rest =>
        { s with
          queues := upd s.queues u rest
          processing := upd s.processing u true
          inFlight := upd s.inFlight u (s.inFlight u ++ [e]) }

/-- The continuation of `processMessageQueue` once the invocation for the
running entry settles with outcome `o`.  In source order: the user message
was written to the transcript before `sendMessage` was awaited; on success
the AI reply is written and `ai_response` emitted to the entry's socket; on
rejection the `catch` block emits `error` to the socket of the *current
head* of the user's queue, if any; the `finally` block removes the user
from `processingUsers` and, when the remaining queue is non-empty,
schedules `processMessageQueue` via `setImmediate`. -/
def finishInvocation (s : State) (u : Nat) (o : Outcome) : State :=
  match s.inFlight u with
  | [] => s
  | e :: restInflight =>
      let s1 : State :=
        { s with
          inFlight := upd s.inFlight u restInflight
          transcript := upd s.transcript u (s.transcript u ++ [⟨.user, e.content⟩]) }
      let s2 : State :=
        match o with
        | .success reply _ =>
            { s1 with
              transcript := upd s1.transcript u (s1.transcript u ++ [⟨.ai, reply⟩])
              emitted := s1.emitted ++ [(e.socketId, .aiResponse reply)]
              deliveredLog := upd s1.deliveredLog u (s1.deliveredLog u ++ [e]) }
        | .failure errMsg =>
            match s1.queues u with
            | [] => s1
            | e2 :: _ =>
                { s1 with
                  emitted := s1.emitted ++
                    [(e2.socketId, .error ("Failed to get AI response: " ++ errMsg))] }
      let s3 : State := { s2 with processing := upd s2.processing u false }
      if s3.queues u = [] then s3 else { s3 with pending := s3.pending ++ [u] }

/-- The `chat_message` handler body for a socket whose `socket.data.userId`
is `uid`: reject empty content with an `error` emit, otherwise append the
entry to the user's queue and call `processMessageQueue`. -/
def onChatMessage (s : State) (sid uid : Nat) (content metadata : String) : State :=
  if content = "" then
    { s with emitted := s.emitted ++ [(sid, .error "Message content is required")] }
  else
    let e : Entry := ⟨content, metadata, sid⟩
    let s1 : State :=
      { s with
        queues := upd s.queues uid (s.queues uid ++ [e])
        enqueuedLog := upd s.enqueuedLog uid (s.enqueuedLog uid ++ [e]) }
    processMessageQueue s1 uid

/-- A scheduled `setImmediate(() => processMessageQueue(u))` callback
firing: remove one pending task for `u` and run `processMessageQueue`. -/
def runPendingTask (s : State) (u : Nat) : State :=
  if u ∈ s.pending then
    processMessageQueue { s with pending := s.pending.erase u } u
  else s

/-- The `disconnect` handler for socket `sid` whose `socket.data.userId` is
`uid`: drop the socket from the live set and filter every entry originating
from it out of the user's queue (deleting the map entry when the filtered
queue is empty, which the total-map view renders as the empty queue). -/
def onDisconnect (s : State) (sid uid : Nat) : State :=
  { s with
    conns := s.conns.filter (fun c => c.1 ≠ sid)
    queues := upd s.queues uid ((s.queues uid).filter (fun e => e.socketId ≠ sid)) }

/-- The `socket.data.userId` every Socket.IO connection receives in the
`io.on('connection')` handler (routes.ts line 743): the development default
identity, installed with no authentication handshake. -/
def defaultUserId : Nat := 5

/-- The `io.on('connection')` handler: register the socket, set
`socket.data.userId` to the development default, and emit `connected`. -/
def onConnection (s : State) (sid : Nat) : State :=
  { s with
    conns := s.conns ++ [(sid, defaultUserId)]
    emitted := s.emitted ++ [(sid, .connected)] }

/-- One atomic event-loop segment. `chat`/`disconnect` carry the socket's
stored `data.userId` (`uid`) explicitly; in routes.ts this value is always
`defaultUserId`, but the queue machinery itself is generic in it. -/
inductive Act : Type
  | connect (sid : Nat)
  | chat (sid uid : Nat) (content metadata : String)
  | runPending (u : Nat)
  | complete (u : Nat) (o : Outcome)
  | disconnect (sid uid : Nat)
deriving DecidableEq, Repr

/-- Apply one atomic segment. -/
def applyAct (s : State) : Act → State
  | .connect sid => onConnection s sid
  | .chat sid uid content metadata => onChatMessage s sid uid content metadata
  | .runPending u => runPendingTask s u
  | .complete u o => finishInvocation s u o
  | .disconnect sid uid => onDisconnect s sid uid

/-- Run a list of atomic segments from a state. -/
def run (s : State) (acts : List Act) : State :=
  acts.foldl applyAct s

/-- Serializer invariant, per user: the in-flight flag is the sole licence
to run (`processing = false` forces no running invocation), at most one
invocation runs at a time, and the delivered results, the running
invocation and the still-queued entries — in that order — form an
order-preserving selection of the entries ever enqueued for the user. -/
def Inv (s : State) : Prop :=
  ∀ u : Nat,
    (s.processing u = false → s.inFlight u = []) ∧
    (s.inFlight u).length ≤ 1 ∧
    (s.deliveredLog u ++ s.inFlight u ++ s.queues u).Sublist (s.enqueuedLog u)

end Gateway

/-! ## `ws`-based gateway variant (`wss.on('connection')`)

The alternative WebSocket route handler authenticates via a `token` query
parameter and handles messages only for sockets whose `ws.userId` is set. -/

namespace WsGateway

open Gateway (Sender Record)

/-- A parsed inbound WebSocket message. -/
inductive WsMsg : Type
  | chat (content : String) (context : String)
  | typing
  | ping
  | other
deriving DecidableEq, Repr

/-- A frame sent back on the WebSocket. -/
inductive WsOut : Type
  | errorNotAuth
  | aiResponse (content : String)
  | typingAck
  | pong
  | errorUnknownType
  | errorProcessingFailed
deriving DecidableEq, Repr

/-- The `ws.on('message')` handler: if `ws.userId` is unset, send a single
`Not authenticated` error and return; otherwise dispatch on the message
type.  For `chat_message` the backend is invoked first (`backendReply`),
then the user and AI rows are written to the transcript and the response
sent; a rejected invocation reaches the `catch` block, which sends
`Message processing failed` and writes nothing.  Returns the updated
per-user transcript and the frames sent on this socket. -/
def handleMessage (userId : Option Nat) (m : WsMsg)
    (backendReply : Except String String)
    (transcript : Nat → List Record) : (Nat → List Record) × List WsOut :=
  match userId with
  | none => (transcript, [.errorNotAuth])
  | some u =>
      match m with
      | .chat content _ =>
          match backendReply with
          | .ok reply =>
              (upd transcript u
                (transcript u ++ [⟨.user, content⟩, ⟨.ai, reply⟩]),
               [.aiResponse reply])
          | .error _ => (transcript, [.errorProcessingFailed])
      | .typing => (transcript, [.typingAck])
      | .ping => (transcript, [.pong])
      | .other => (transcript, [.errorUnknownType])

end WsGateway

/-! ## Basic lemmas -/

@[simp] theorem upd_same {α : Type} [DecidableEq α] {β : Type}
    (f : α → β) (k : α) (v : β) : upd f k v k = v := by
  simp [upd]

@[simp] theorem upd_other {α : Type} [DecidableEq α] {β : Type}
    (f : α → β) (k x : α) (v : β) (h : x ≠ k) : upd f k v x = f x := by
  simp [upd, h]

namespace Gateway

theorem inv_init : Inv init := by
  intro u
  refine ⟨fun _ => rfl, ?_, ?_⟩ <;> simp [init]

theorem inv_processMessageQueue {s : State} (hs : Inv s) (u : Nat) :
    Inv (processMessageQueue s u) := by
  unfold processMessageQueue
  cases hp : s.processing u with
  | true => simpa using hs
  | false =>
    simp only [Bool.false_eq_true, if_false]
    cases hq : s.queues u with
    | nil => exact hs
    | cons e rest =>
      intro v
      rcases hs v with ⟨h1, h2, h3⟩
      by_cases hv : v = u
      · subst hv
        have hF : s.inFlight v = [] := h1 hp
        refine ⟨?_, ?_, ?_⟩
        · intro hcontra; simp at hcontra
        · simp [hF]
        · simp only [upd_same]
          rw [hF]
          rw [hq, hF] at h3
          simpa using h3
      · simp only [upd_other _ _ _ _ hv]
        exact ⟨h1, h2, h3⟩

theorem inv_onChatMessage {s : State} (hs : Inv s) (sid uid : Nat)
    (content metadata : String) :
    Inv (onChatMessage s sid uid content metadata) := by
  unfold onChatMessage
  by_cases hc : content = ""
  · simpa [hc] using hs
  · simp only [hc, if_false]
    apply inv_processMessageQueue
    intro v
    rcases hs v with ⟨h1, h2, h3⟩
    by_cases hv : v = uid
    · subst hv
      refine ⟨h1, h2, ?_⟩
      simp only [upd_same]
      have : s.deliveredLog v ++ s.inFlight v ++ (s.queues v ++ [⟨content, metadata, sid⟩]) =
          (s.deliveredLog v ++ s.inFlight v ++ s.queues v) ++ [⟨content, metadata, sid⟩] := by
        simp [List.append_assoc]
      rw [this]
      exact h3.append (List.Sublist.refl _)
    · simp only [upd_other _ _ _ _ hv]
      exact ⟨h1, h2, h3⟩

theorem inv_runPendingTask {s : State} (hs : Inv s) (u : Nat) :
    Inv (runPendingTask s u) := by
  unfold runPendingTask
  by_cases hm : u ∈ s.pending
  · simp only [hm, if_true]
    refine inv_processMessageQueue ?_ u
    intro v
    exact hs v
  · simpa [hm] using hs

theorem inv_onDisconnect {s : State} (hs : Inv s) (sid uid : Nat) :
    Inv (onDisconnect s sid uid) := by
  intro v
  rcases hs v with ⟨h1, h2, h3⟩
  unfold onDisconnect
  by_cases hv : v = uid
  · subst hv
    refine ⟨h1, h2, ?_⟩
    simp only [upd_same]
    refine List.Sublist.trans ?_ h3
    exact List.Sublist.append_left (List.filter_sublist _) _
  · simp only [upd_other _ _ _ _ hv]
    exact ⟨h1, h2, h3⟩

theorem inv_onConnection {s : State} (hs : Inv s) (sid : Nat) :
    Inv (onConnection s sid) := by
  intro v
  exact hs v

theorem inFlight_singleton {s : State} (hs : Inv s) {u : Nat} {e : Entry}
    {restF : List Entry} (hF : s.inFlight u = e :: restF) : restF = [] := by
  have h2 := (hs u).2.1
  rw [hF] at h2
  simp only [List.length_cons] at h2
  have : restF.length = 0 := by omega
  exact List.eq_nil_of_length_eq_zero this

theorem sublist_append_middle {α : Type} (D Q : List α) (e : α) :
    (D ++ Q).Sublist (D ++ e :: Q) :=
  List.Sublist.append_left (List.sublist_cons_self e Q) D

theorem fi_queues {s : State} {u : Nat} {e : Entry} {restF : List Entry}
    (hF : s.inFlight u = e :: restF) (o : Outcome) :
    (finishInvocation s u o).queues = s.queues := by
  unfold finishInvocation
  rw [hF]
  cases o <;> cases hq : s.queues u <;> simp [hq]

theorem fi_conns {s : State} {u : Nat} {e : Entry} {restF : List Entry}
    (hF : s.inFlight u = e :: restF) (o : Outcome) :
    (finishInvocation s u o).conns = s.conns := by
  unfold finishInvocation
  rw [hF]
  cases o <;> cases hq : s.queues u <;> simp [hq]

theorem fi_enqueuedLog {s : State} {u : Nat} {e : Entry} {restF : List Entry}
    (hF : s.inFlight u = e :: restF) (o : Outcome) :
    (finishInvocation s u o).enqueuedLog = s.enqueuedLog := by
  unfold finishInvocation
  rw [hF]
  cases o <;> cases hq : s.queues u <;> simp [hq]

theorem fi_processing {s : State} {u : Nat} {e : Entry} {restF : List Entry}
    (hF : s.inFlight u = e :: restF) (o : Outcome) :
    (finishInvocation s u o).processing = upd s.processing u false := by
  unfold finishInvocation
  rw [hF]
  cases o <;> cases hq : s.queues u <;> simp [hq]

theorem fi_inFlight {s : State} {u : Nat} {e : Entry} {restF : List Entry}
    (hF : s.inFlight u = e :: restF) (o : Outcome) :
    (finishInvocation s u o).inFlight = upd s.inFlight u restF := by
  unfold finishInvocation
  rw [hF]
  cases o <;> cases hq : s.queues u <;> simp [hq]

theorem fi_pending {s : State} {u : Nat} {e : Entry} {restF : List Entry}
    (hF : s.inFlight u = e :: restF) (o : Outcome) :
    (finishInvocation s u o).pending =
      (if s.queues u = [] then s.pending else s.pending ++ [u]) := by
  unfold finishInvocation
  rw [hF]
  cases o <;> cases hq : s.queues u <;> simp [hq]

theorem fi_deliveredLog_success {s : State} {u : Nat} {e : Entry} {restF : List Entry}
    (hF : s.inFlight u = e :: restF) (reply replyMeta : String) :
    (finishInvocation s u (.success reply replyMeta)).deliveredLog =
      upd s.deliveredLog u (s.deliveredLog u ++ [e]) := by
  unfold finishInvocation
  rw [hF]
  cases hq : s.queues u <;> simp [hq]

theorem fi_deliveredLog_failure {s : State} {u : Nat} {e : Entry} {restF : List Entry}
    (hF : s.inFlight u = e :: restF) (errMsg : String) :
    (finishInvocation s u (.failure errMsg)).deliveredLog = s.deliveredLog := by
  unfold finishInvocation
  rw [hF]
  cases hq : s.queues u <;> simp [hq]

theorem fi_transcript_success {s : State} {u : Nat} {e : Entry} {restF : List Entry}
    (hF : s.inFlight u = e :: restF) (reply replyMeta : String) :
    (finishInvocation s u (.success reply replyMeta)).transcript =
      upd s.transcript u (s.transcript u ++ [⟨.user, e.content⟩, ⟨.ai, reply⟩]) := by
  unfold finishInvocation
  rw [hF]
  cases hq : s.queues u <;>
    · simp only [hq]
      funext v
      by_cases hv : v = u
      · subst hv; simp [upd]
      · simp [upd, hv]

theorem fi_transcript_failure {s : State} {u : Nat} {e : Entry} {restF : List Entry}
    (hF : s.inFlight u = e :: restF) (errMsg : String) :
    (finishInvocation s u (.failure errMsg)).transcript =
      upd s.transcript u (s.transcript u ++ [⟨.user, e.content⟩]) := by
  unfold finishInvocation
  rw [hF]
  cases hq : s.queues u <;> simp [hq]

theorem fi_emitted_success {s : State} {u : Nat} {e : Entry} {restF : List Entry}
    (hF : s.inFlight u = e :: restF) (reply replyMeta : String) :
    (finishInvocation s u (.success reply replyMeta)).emitted =
      s.emitted ++ [(e.socketId, .aiResponse reply)] := by
  unfold finishInvocation
  rw [hF]
  cases hq : s.queues u <;> simp [hq]

theorem fi_emitted_failure_nil {s : State} {u : Nat} {e : Entry} {restF : List Entry}
    (hF : s.inFlight u = e :: restF) (hq : s.queues u = []) (errMsg : String) :
    (finishInvocation s u (.failure errMsg)).emitted = s.emitted := by
  unfold finishInvocation
  rw [hF]
  simp [hq]

theorem fi_emitted_failure_cons {s : State} {u : Nat} {e e2 : Entry}
    {restF qrest : List Entry}
    (hF : s.inFlight u = e :: restF) (hq : s.queues u = e2 :: qrest) (errMsg : String) :
    (finishInvocation s u (.failure errMsg)).emitted =
      s.emitted ++ [(e2.socketId, .error ("Failed to get AI response: " ++ errMsg))] := by
  unfold finishInvocation
  rw [hF]
  simp [hq]

theorem inv_finishInvocation {s : State} (hs : Inv s) (u : Nat) (o : Outcome) :
    Inv (finishInvocation s u o) := by
  cases hF : s.inFlight u with
  | nil =>
    unfold finishInvocation
    rw [hF]
    exact hs
  | cons e restF =>
    have hrest : restF = [] := inFlight_singleton hs hF
    subst hrest
    intro v
    rcases hs v with ⟨h1, h2, h3⟩
    rw [fi_queues hF o, fi_processing hF o, fi_inFlight hF o, fi_enqueuedLog hF o]
    by_cases hv : v = u
    · subst hv
      refine ⟨fun _ => upd_same .., ?_, ?_⟩
      · simp
      · rw [hF] at h3
        cases o with
        | success reply replyMeta =>
          rw [fi_deliveredLog_success hF reply replyMeta]
          simp only [upd_same]
          simpa [List.append_assoc] using h3
        | failure errMsg =>
          rw [fi_deliveredLog_failure hF errMsg]
          refine List.Sublist.trans ?_ h3
          simp only [upd_same, List.append_nil, List.nil_append]
          simp [List.append_assoc]
    · refine ⟨?_, ?_, ?_⟩
      · intro hpf
        rw [upd_other _ _ _ _ hv] at hpf ⊢
        exact h1 hpf
      · rw [upd_other _ _ _ _ hv]
        exact h2
      · cases o with
        | success reply replyMeta =>
          rw [fi_deliveredLog_success hF reply replyMeta]
          rw [upd_other _ _ _ _ hv, upd_other _ _ _ _ hv]
          exact h3
        | failure errMsg =>
          rw [fi_deliveredLog_failure hF errMsg]
          rw [upd_other _ _ _ _ hv]
          exact h3

theorem inv_applyAct {s : State} (hs : Inv s) (a : Act) : Inv (applyAct s a) := by
  cases a with
  | connect sid => exact inv_onConnection hs sid
  | chat sid uid content metadata => exact inv_onChatMessage hs sid uid content metadata
  | runPending u => exact inv_runPendingTask hs u
  | complete u o => exact inv_finishInvocation hs u o
  | disconnect sid uid => exact inv_onDisconnect hs sid uid

theorem inv_run_aux {s : State} (hs : Inv s) (acts : List Act) : Inv (run s acts) := by
  induction acts generalizing s with
  | nil => exact hs
  | cons a rest ih => exact ih (inv_applyAct hs a)

theorem inv_run (acts : List Act) : Inv (run init acts) :=
  inv_run_aux inv_init acts

theorem pmq_starts {s : State} {u : Nat} {e : Entry} {rest : List Entry}
    (hp : s.processing u = false) (hq : s.queues u = e :: rest) :
    (processMessageQueue s u).processing u = true ∧
    (processMessageQueue s u).inFlight u = s.inFlight u ++ [e] ∧
    (processMessageQueue s u).queues u = rest := by
  unfold processMessageQueue
  rw [hp, hq]
  simp

theorem runPendingTask_mem {s : State} {u : Nat} (hm : u ∈ s.pending) :
    runPendingTask s u =
      processMessageQueue { s with pending := s.pending.erase u } u := by
  unfold runPendingTask
  simp [hm]

end Gateway

/-! ## The claims -/

/-- C1: in every reachable state of the Socket.IO gateway and for every user
id, at most one Backend Invoker call is in flight, and the results delivered
so far, followed by the running invocation and then the still-queued
entries, are an order-preserving selection of the chat requests ever
enqueued for that user: invocations run one at a time and results are
delivered in enqueue order. -/
theorem claim1_per_user_serialization (acts : List Gateway.Act) (u : Nat) :
    ((Gateway.run Gateway.init acts).inFlight u).length ≤ 1 ∧
    ((Gateway.run Gateway.init acts).deliveredLog u ++
        (Gateway.run Gateway.init acts).inFlight u ++
        (Gateway.run Gateway.init acts).queues u).Sublist
      ((Gateway.run Gateway.init acts).enqueuedLog u) := by
  rcases Gateway.inv_run acts u with ⟨_, h2, h3⟩
  exact ⟨h2, h3⟩

/-- C2: whatever the outcome of an invocation (success, or the rejection a
failure/timeout becomes), the `finally` block clears the user's processing
flag, and if the user's queue is non-empty a `processMessageQueue` task is
scheduled whose execution immediately moves the new head entry in flight. -/
theorem claim2_queue_never_stalls (s : Gateway.State) (u : Nat)
    (o : Gateway.Outcome) (e : Gateway.Entry) (restF : List Gateway.Entry)
    (hF : s.inFlight u = e :: restF) :
    (Gateway.finishInvocation s u o).processing u = false ∧
    (∀ e2 rest2, (Gateway.finishInvocation s u o).queues u = e2 :: rest2 →
      u ∈ (Gateway.finishInvocation s u o).pending ∧
      (Gateway.runPendingTask (Gateway.finishInvocation s u o) u).processing u = true ∧
      (Gateway.runPendingTask (Gateway.finishInvocation s u o) u).inFlight u =
        (Gateway.finishInvocation s u o).inFlight u ++ [e2] ∧
      (Gateway.runPendingTask (Gateway.finishInvocation s u o) u).queues u = rest2) := by
  have hproc : (Gateway.finishInvocation s u o).processing u = false := by
    rw [Gateway.fi_processing hF o]
    exact upd_same ..
  refine ⟨hproc, ?_⟩
  intro e2 rest2 hq2
  have hqs : s.queues u = e2 :: rest2 := by
    rw [Gateway.fi_queues hF o] at hq2
    exact hq2
  have hpend : u ∈ (Gateway.finishInvocation s u o).pending := by
    rw [Gateway.fi_pending hF o, hqs]
    simp
  refine ⟨hpend, ?_⟩
  rw [Gateway.runPendingTask_mem hpend]
  have hp' : ({ Gateway.finishInvocation s u o with
      pending := (Gateway.finishInvocation s u o).pending.erase u } :
        Gateway.State).processing u = false := hproc
  have hq' : ({ Gateway.finishInvocation s u o with
      pending := (Gateway.finishInvocation s u o).pending.erase u } :
        Gateway.State).queues u = e2 :: rest2 := hq2
  exact Gateway.pmq_starts hp' hq'

/-- C2 witness: user 1 has entry "a" in flight and entry "b" queued; a
failed invocation still clears the flag and the scheduled task starts "b". -/
theorem claim2_witness :
    (Gateway.finishInvocation
        (Gateway.run Gateway.init [.chat 3 1 "a" "m", .chat 3 1 "b" "m"])
        1 (.failure "boom")).processing 1 = false ∧
    (Gateway.runPendingTask
        (Gateway.finishInvocation
          (Gateway.run Gateway.init [.chat 3 1 "a" "m", .chat 3 1 "b" "m"])
          1 (.failure "boom")) 1).processing 1 = true := by
  have h := claim2_queue_never_stalls
    (Gateway.run Gateway.init [.chat 3 1 "a" "m", .chat 3 1 "b" "m"])
    1 (.failure "boom") ⟨"a", "m", 3⟩ [] (by decide)
  have h2 := h.2 ⟨"b", "m", 3⟩ [] (by decide)
  exact ⟨h.1, h2.2.1⟩

/-- C3: evaluation of the `catch` path of `processMessageQueue` at two
concrete runs.  First run: socket 3 sends one chat; its invocation fails
with the queue now empty, and no `error` event is emitted at all — the
connection whose request failed receives nothing.  Second run: sockets 3
and 4 each queue a chat; socket 3's invocation fails and the error event is
emitted to socket 4 (the head of the remaining queue), not to socket 3. -/
theorem claim3_error_event_misrouted :
    ((Gateway.run Gateway.init
        [.connect 3, .chat 3 5 "hello" "m",
         .complete 5 (.failure "CLI failed")]).emitted
      = [(3, .connected)]) ∧
    ((Gateway.run Gateway.init
        [.connect 3, .connect 4, .chat 3 5 "q1" "m", .chat 4 5 "q2" "m",
         .complete 5 (.failure "CLI failed")]).emitted
      = [(3, .connected), (4, .connected),
         (4, .error "Failed to get AI response: CLI failed")]) := by
  decide

/-- C4 counterexample: user 5 has two live connections, sockets 3 and 4;
socket 3's chat completes successfully, yet the full emit stream shows the
result was pushed only to socket 3 — socket 4, although a currently live
connection bound to the same user id, receives nothing after its welcome
event, refuting delivery to every live connection of the user. -/
theorem claim4_counterexample :
    ((Gateway.run Gateway.init
        [.connect 3, .connect 4, .chat 3 5 "hello" "m",
         .complete 5 (.success "hi" "t")]).conns = [(3, 5), (4, 5)]) ∧
    ((Gateway.run Gateway.init
        [.connect 3, .connect 4, .chat 3 5 "hello" "m",
         .complete 5 (.success "hi" "t")]).emitted
      = [(3, .connected), (4, .connected), (3, .aiResponse "hi")]) := by
  decide

/-- C4 (amended): when an invocation completes successfully, the result is
emitted exactly once, to the originating socket recorded in the queue
entry; the connection registry is neither consulted nor modified, so other
live connections of the same user receive nothing and a closed originating
socket makes the emit a silent no-op. -/
theorem claim4_delivery_to_originating_socket (s : Gateway.State) (u : Nat)
    (e : Gateway.Entry) (restF : List Gateway.Entry) (reply replyMeta : String)
    (hF : s.inFlight u = e :: restF) :
    (Gateway.finishInvocation s u (.success reply replyMeta)).emitted =
      s.emitted ++ [(e.socketId, .aiResponse reply)] ∧
    (Gateway.finishInvocation s u (.success reply replyMeta)).conns = s.conns :=
  ⟨Gateway.fi_emitted_success hF reply replyMeta, Gateway.fi_conns hF _⟩

/-- C4 witness: a concrete successful completion emits to socket 3 only. -/
theorem claim4_witness :
    (Gateway.finishInvocation
        (Gateway.run Gateway.init [.connect 3, .connect 4, .chat 3 5 "hello" "m"])
        5 (.success "hi" "t")).emitted
      = [(3, .connected), (4, .connected), (3, .aiResponse "hi")] := by
  have h := claim4_delivery_to_originating_socket
    (Gateway.run Gateway.init [.connect 3, .connect 4, .chat 3 5 "hello" "m"])
    5 ⟨"hello", "m", 3⟩ [] "hi" "t" (by decide)
  exact h.1.trans (by decide)

/-- C5 counterexample (Socket.IO gateway of routes.ts): socket 9 connects —
no authentication handshake exists, the handler only installs the
development default user id — and sends a chat event.  The socket receives
no `error` event (only the welcome event), and the message is enqueued
under user id 5 and taken in flight, refuting "exactly one error event and
nothing else happens". -/
theorem claim5_counterexample :
    ((Gateway.run Gateway.init
        [.connect 9, .chat 9 Gateway.defaultUserId "hello" "m"]).emitted
      = [(9, .connected)]) ∧
    ((Gateway.run Gateway.init
        [.connect 9, .chat 9 Gateway.defaultUserId "hello" "m"]).enqueuedLog
          Gateway.defaultUserId = [⟨"hello", "m", 9⟩]) ∧
    ((Gateway.run Gateway.init
        [.connect 9, .chat 9 Gateway.defaultUserId "hello" "m"]).inFlight
          Gateway.defaultUserId = [⟨"hello", "m", 9⟩]) := by
  decide

/-- C5 (amended): in the `ws`-based gateway variant, a message arriving on
a connection whose `userId` is unset yields exactly one `Not authenticated`
error frame and nothing else — no transcript write, no backend call
observable, regardless of the message and of the backend's behaviour. -/
theorem claim5_ws_unauthenticated_rejection (m : WsGateway.WsMsg)
    (backendReply : Except String String)
    (transcript : Nat → List Gateway.Record) :
    WsGateway.handleMessage none m backendReply transcript =
      (transcript, [.errorNotAuth]) :=
  rfl

/-- C6 counterexample: user 5's only connection is socket 3; two chats are
enqueued, the first goes in flight, and then socket 3 disconnects.  The
second, still-queued entry is removed by the disconnect handler — the
queue does not survive the disconnect, refuting "the remaining enqueued
entries stay in the queue" (the in-flight entry itself does survive). -/
theorem claim6_counterexample :
    ((Gateway.run Gateway.init
        [.connect 3, .chat 3 5 "m1" "x", .chat 3 5 "m2" "x",
         .disconnect 3 5]).enqueuedLog 5 = [⟨"m1", "x", 3⟩, ⟨"m2", "x", 3⟩]) ∧
    ((Gateway.run Gateway.init
        [.connect 3, .chat 3 5 "m1" "x", .chat 3 5 "m2" "x",
         .disconnect 3 5]).inFlight 5 = [⟨"m1", "x", 3⟩]) ∧
    ((Gateway.run Gateway.init
        [.connect 3, .chat 3 5 "m1" "x", .chat 3 5 "m2" "x",
         .disconnect 3 5]).deliveredLog 5 = []) ∧
    ((Gateway.run Gateway.init
        [.connect 3, .chat 3 5 "m1" "x", .chat 3 5 "m2" "x",
         .disconnect 3 5]).queues 5 = []) := by
  decide

/-- C6 (amended): the queue map is keyed by user id and a disconnect leaves
the in-flight invocation, the processing flag and the transcript untouched
— the invocation runs to completion afterwards, its transcript is written
and the processing flag is cleared with no stall — but the disconnect
handler removes the still-queued entries that originated from the closed
socket from the user's queue. -/
theorem claim6_disconnect_behaviour (s : Gateway.State) (sid u : Nat)
    (o : Gateway.Outcome) (e : Gateway.Entry) (restF : List Gateway.Entry)
    (hF : s.inFlight u = e :: restF) :
    (Gateway.onDisconnect s sid u).inFlight = s.inFlight ∧
    (Gateway.onDisconnect s sid u).processing = s.processing ∧
    (Gateway.onDisconnect s sid u).transcript = s.transcript ∧
    (Gateway.onDisconnect s sid u).queues u =
      (s.queues u).filter (fun x => x.socketId ≠ sid) ∧
    (Gateway.finishInvocation (Gateway.onDisconnect s sid u) u o).processing u
      = false ∧
    (Gateway.finishInvocation (Gateway.onDisconnect s sid u) u o).transcript u =
      s.transcript u ++ Gateway.Record.mk .user e.content ::
        (match o with
         | .success reply _ => [Gateway.Record.mk .ai reply]
         | .failure _ => []) := by
  have hF' : (Gateway.onDisconnect s sid u).inFlight u = e :: restF := hF
  refine ⟨rfl, rfl, rfl, ?_, ?_, ?_⟩
  · unfold Gateway.onDisconnect
    exact upd_same ..
  · rw [Gateway.fi_processing hF' o]
    exact upd_same ..
  · cases o with
    | success reply replyMeta =>
      rw [Gateway.fi_transcript_success hF' reply replyMeta]
      simp [Gateway.onDisconnect]
    | failure errMsg =>
      rw [Gateway.fi_transcript_failure hF' errMsg]
      simp [Gateway.onDisconnect]

/-- C6 witness: after the counterexample scenario's disconnect, the
in-flight invocation completes, writes its transcript pair, and clears the
processing flag. -/
theorem claim6_witness :
    (Gateway.finishInvocation
        (Gateway.onDisconnect
          (Gateway.run Gateway.init [.connect 3, .chat 3 5 "m1" "x"]) 3 5)
        5 (.success "r1" "t")).transcript 5
      = [⟨.user, "m1"⟩, ⟨.ai, "r1"⟩] := by
  have h := claim6_disconnect_behaviour
    (Gateway.run Gateway.init [.connect 3, .chat 3 5 "m1" "x"]) 3 5
    (.success "r1" "t") ⟨"m1", "x", 3⟩ [] (by decide)
  exact h.2.2.2.2.2.trans (by decide)

/-- C9: for every dequeued request, the transcript after the invocation
settles is the previous transcript, then the user's message, then — only
on success — the backend's reply: the user-message record precedes the
reply record of the same request, and on failure or timeout the user's
message is still recorded, with no paired reply. -/
theorem claim9_transcript_order (s : Gateway.State) (u : Nat)
    (o : Gateway.Outcome) (e : Gateway.Entry) (restF : List Gateway.Entry)
    (hF : s.inFlight u = e :: restF) :
    (Gateway.finishInvocation s u o).transcript u =
      s.transcript u ++ Gateway.Record.mk .user e.content ::
        (match o with
         | .success reply _ => [Gateway.Record.mk .ai reply]
         | .failure _ => []) := by
  cases o with
  | success reply replyMeta =>
    rw [Gateway.fi_transcript_success hF reply replyMeta]
    simp
  | failure errMsg =>
    rw [Gateway.fi_transcript_failure hF errMsg]
    simp

/-- C9 witness: a failed invocation of the single request "hi" leaves
exactly the user-message record in the transcript. -/
theorem claim9_witness :
    (Gateway.finishInvocation
        (Gateway.run Gateway.init [.chat 4 2 "hi" "x"]) 2
        (.failure "timeout")).transcript 2
      = [⟨.user, "hi"⟩] := by
  have h := claim9_transcript_order
    (Gateway.run Gateway.init [.chat 4 2 "hi" "x"]) 2
    (.failure "timeout") ⟨"hi", "x", 4⟩ [] (by decide)
  exact h.trans (by decide)

/-- C7: the Backend Invoker's outcome classification.  The promise resolves
with the trimmed accumulated output exactly when the process exits with
status 0 and the trimmed output is non-empty; every exit with a failure
status or with no usable output rejects; the process is killed exactly in
the timeout case, which rejects with `Response timeout`; and the timeout
window is 60 000 ms. -/
theorem claim7_invoker_classification (e : GeminiCLI.ExecEnd) :
    (∀ msg, (GeminiCLI.sendMessageClassify true e).result = .resolved msg ↔
        ∃ code stdout stderr, e = .closed code stdout stderr ∧
          code = 0 ∧ jsTrim stdout ≠ "" ∧ msg = jsTrim stdout) ∧
    (∀ code stdout stderr, e = .closed code stdout stderr →
        ¬(code = 0 ∧ jsTrim stdout ≠ "") →
        ∃ reason,
          (GeminiCLI.sendMessageClassify true e).result = .rejected reason) ∧
    ((GeminiCLI.sendMessageClassify true e).killed = true ↔ e = .timedOut) ∧
    GeminiCLI.sendMessageClassify true .timedOut =
      ⟨.rejected "Response timeout", true⟩ ∧
    GeminiCLI.timeoutMs = 60000 := by
  refine ⟨?_, ?_, ?_, rfl, rfl⟩
  · intro msg
    cases e with
    | closed code stdout stderr =>
      by_cases h : code = 0 ∧ jsTrim stdout ≠ ""
      · obtain ⟨h0, hne⟩ := h
        subst h0
        have hres : (GeminiCLI.sendMessageClassify true
            (.closed 0 stdout stderr)).result = .resolved (jsTrim stdout) := by
          simp [GeminiCLI.sendMessageClassify, hne]
        rw [hres]
        constructor
        · intro hmsg
          have hm : msg = jsTrim stdout := by
            injection hmsg with h'
            exact h'.symm
          exact ⟨0, stdout, stderr, rfl, rfl, hne, hm⟩
        · rintro ⟨c2, s2, e2, heq, h0', hne', hm⟩
          cases heq
          rw [hm]
      · constructor
        · intro hmsg
          exfalso
          simp [GeminiCLI.sendMessageClassify, h] at hmsg
        · rintro ⟨c2, s2, e2, heq, h0', hne', hm⟩
          cases heq
          exact absurd ⟨h0', hne'⟩ h
    | procError m =>
      simp [GeminiCLI.sendMessageClassify]
    | timedOut =>
      simp [GeminiCLI.sendMessageClassify]
  · rintro code stdout stderr rfl hnot
    refine ⟨if stderr = "" then "Process exited with code " ++ toString code
            else stderr, ?_⟩
    simp [GeminiCLI.sendMessageClassify, hnot]
  · cases e with
    | closed code stdout stderr =>
      by_cases h : code = 0 ∧ jsTrim stdout ≠ "" <;>
        simp [GeminiCLI.sendMessageClassify, h]
    | procError m =>
      simp [GeminiCLI.sendMessageClassify]
    | timedOut =>
      simp [GeminiCLI.sendMessageClassify]

/-- C7 witness: exit code 0 with output " hi \n" resolves with "hi", and a
concrete failing exit rejects with some reason. -/
theorem claim7_witness :
    (GeminiCLI.sendMessageClassify true (.closed 0 " hi \n" "")).result =
      .resolved "hi" ∧
    ∃ reason, (GeminiCLI.sendMessageClassify true (.closed 1 "out" "oops")).result =
      .rejected reason := by
  constructor
  · exact ((claim7_invoker_classification (.closed 0 " hi \n" "")).1 "hi").mpr
      ⟨0, " hi \n", "", rfl, rfl, by decide, by decide⟩
  · exact (claim7_invoker_classification (.closed 1 "out" "oops")).2.1
      1 "out" "oops" rfl (by decide)

/-- C8: `validateSession` never throws — its translation returns a plain
optional user — and yields "not authenticated" (`none`) for an empty token,
for a lookup that raises an error, for an unknown token, and, with the
wired in-memory storage, for a token whose session expiry instant has
passed. -/
theorem claim8_validate_session_null_cases
    (gs : String → Except String (Option Auth.Session))
    (gu : Nat → Except String (Option Auth.User)) (token : String) :
    (Auth.validateSession gs gu "" = none) ∧
    (∀ msg, gs token = .error msg → Auth.validateSession gs gu token = none) ∧
    (gs token = .ok none → Auth.validateSession gs gu token = none) ∧
    (∀ (sessions : List Auth.Session) (now : Int) (s0 : Auth.Session),
      sessions.find? (fun s => s.token = token) = some s0 →
      s0.expiresAt < now →
      Auth.validateSessionMem sessions now gu token = none) := by
  refine ⟨by simp [Auth.validateSession], ?_, ?_, ?_⟩
  · intro msg h
    by_cases ht : token = "" <;> simp [Auth.validateSession, ht, h]
  · intro h
    by_cases ht : token = "" <;> simp [Auth.validateSession, ht, h]
  · intro sessions now s0 hfind hlt
    by_cases ht : token = ""
    · simp [Auth.validateSessionMem, Auth.validateSession, ht]
    · simp [Auth.validateSessionMem, Auth.validateSession, Auth.memGetSession,
        ht, hfind, hlt]

/-- C8 witness: the session for token "tok" expired at instant 100; at
instant 200 validation over the in-memory storage returns `none`. -/
theorem claim8_witness :
    Auth.validateSessionMem [⟨7, "tok", 100⟩] 200
      (fun _ => .ok (some ⟨7⟩)) "tok" = none :=
  (claim8_validate_session_null_cases
      (fun _ => .ok none) (fun _ => .ok (some ⟨7⟩)) "tok").2.2.2
    [⟨7, "tok", 100⟩] 200 ⟨7, "tok", 100⟩ (by decide) (by decide)

/-- C10: `GeminiService.sendMessage` appends every caller's message and the
reply to the one shared `conversationHistory` (the new history always ends
with the caller's user entry and the assistant reply, on top of whatever
any other caller left there), and the prompt built for a message depends on
that shared history: the prompt for "hello" on a fresh history differs from
the prompt for the same "hello" after another user's exchange was recorded
— per-user noninterference fails. -/
theorem claim10_shared_history_interference :
    (∀ (hist : List Gemini.HistEntry) (msg : String) (ctx : Option String)
        (r : String), ∃ pre,
      (Gemini.sendMessage hist msg ctx r).1 =
        pre ++ [⟨"user", msg⟩, ⟨"assistant", Gemini.fallbackText r⟩]) ∧
    ((Gemini.sendMessage [] "hello" none "hi").2.1 = "hello") ∧
    ((Gemini.sendMessage
        (Gemini.sendMessage [] "what did user B ask" none "billing details").1
        "hello" none "hi").2.1
      ≠ (Gemini.sendMessage [] "hello" none "hi").2.1) := by
  refine ⟨?_, by decide, by decide⟩
  intro hist msg ctx r
  unfold Gemini.sendMessage
  dsimp only
  split_ifs with hlen
  · refine ⟨hist.drop (hist.length + 2 - 20), ?_⟩
    unfold Gemini.takeLast
    simp only [List.length_append, List.length_cons, List.length_nil] at hlen ⊢
    have hassoc :
        hist ++ [(⟨"user", msg⟩ : Gemini.HistEntry)] ++
            [(⟨"assistant", Gemini.fallbackText r⟩ : Gemini.HistEntry)] =
          hist ++ [⟨"user", msg⟩, ⟨"assistant", Gemini.fallbackText r⟩] := by
      simp
    rw [hassoc, List.drop_append_of_le_length (by omega)]
  · exact ⟨hist, by simp⟩

end GemDesk
